import Mathlib

/-!
Shallow embedding of the geocoding and item-browsing core of the
`zwelakhe-m/frontend` repository (Angular/TypeScript), together with proofs
settling the frozen specification claims.

Sources embedded:
* `src/app/services/geocoding.service.ts` (`GeocodingService`): cache keys,
  coordinate fallback formatting, the rate-limited request queue, address
  formatting, cache reads.
* `src/app/components/items/items-browse.component.ts`
  (`ItemsBrowseComponent`): client-side filtering in `loadItems`, distance
  computation in `calculateDistances` (haversine), sorting in `applySorting`,
  pagination in `calculateAndSetItems`.

Numbers that are JavaScript `number`s in the source are modelled as `ℚ`
wherever the logic is discrete (cache keys, comparisons, formatting), and as
`ℝ` for the transcendental haversine formula.  JavaScript truthiness of a
number (falsy exactly on `0`/`NaN`/`undefined`) is modelled on `Option` types
with `0` falsy.
-/

namespace Frontend

/-! ### Generic string helpers (JS `String.prototype` operations) -/

/-- JS `a.startsWith(b)` on character lists. -/
def prefixOfList : List Char → List Char → Bool
  | [], _ => true
  | _ :: _, [] => false
  | a :: as, b :: bs => a == b && prefixOfList as bs

/-- JS `haystack.includes(needle)` on character lists. -/
def subListOf (needle : List Char) : List Char → Bool
  | [] => prefixOfList needle []
  | c :: cs => prefixOfList needle (c :: cs) || subListOf needle cs

/-- JS `haystack.includes(needle)` for strings. -/
def strContains (haystack needle : String) : Bool :=
  subListOf needle.data haystack.data

/-- JS `s.match(/^\d/)` non-null test: first character is a digit. -/
def startsWithDigit (s : String) : Bool :=
  match s.data with
  | [] => false
  | c :: _ => c.isDigit

/-- JS string-or idiom `a || b` for strings: empty string is falsy. -/
def strOr (a b : String) : String := if a = "" then b else a

/-- JS `s.trim()`: strip whitespace from both ends. -/
def jsTrim (s : String) : String :=
  String.mk (((s.data.dropWhile Char.isWhitespace).reverse.dropWhile Char.isWhitespace).reverse)

/-- JS `s.toLowerCase()` (ASCII case folding suffices for the embedded
string logic). -/
def jsToLower (s : String) : String := String.mk (s.data.map Char.toLower)

/-- JS `s.split(sep)` on character lists (`"".split(sep)` is `[""]`,
trailing separators produce trailing empty segments). -/
def jsSplit (sep : Char) : List Char → List (List Char)
  | [] => [[]]
  | c :: cs =>
    match jsSplit sep cs with
    | [] => [[]]
    | r :: rs => if c = sep then [] :: r :: rs else (c :: r) :: rs

/-- JS `s.split(',')` for strings. -/
def jsSplitComma (s : String) : List String := (jsSplit ',' s.data).map String.mk

/-- JS `s.substring(0, n)`. -/
def jsTake (s : String) (n : Nat) : String := String.mk (s.data.take n)

/-! ### GeoKeyCodec: `toFixed`-based cache keys and coordinate formatting

`Number.prototype.toFixed(d)` renders the sign of the number followed by
`|x|` rounded to `d` decimals (round-half-up on the magnitude).  We model the
rendered digits exactly, so that e.g. `(-0.00002).toFixed(4) = "-0.0000"` and
`(0.00002).toFixed(4) = "0.0000"` are distinct strings, as in JS. -/

/-- Magnitude of `q` rounded to `d` decimal digits, as an integer scaled by
`10 ^ d` (the digit string rendered by `toFixed`, without sign or dot). -/
def fixedMant (d : Nat) (q : ℚ) : ℤ := round (|q| * (10 : ℚ) ^ d)

/-- JS `q.toFixed(d)`: sign, integer part, dot, zero-padded fractional part. -/
def toFixedStr (d : Nat) (q : ℚ) : String :=
  let m : Nat := (fixedMant d q).toNat
  let ip : Nat := m / 10 ^ d
  let fp : Nat := m % 10 ^ d
  let fps : String := Nat.repr fp
  let pad : String := String.mk (List.replicate (d - fps.length) '0')
  (if q < 0 then "-" else "") ++ Nat.repr ip ++ "." ++ pad ++ fps

/-- Cache key of `reverseGeocode` / `getCachedAddress`:
`` `${lat.toFixed(4)},${lon.toFixed(4)}` ``. -/
def keyFor (lat lon : ℚ) : String :=
  toFixedStr 4 lat ++ "," ++ toFixedStr 4 lon

/-- `GeocodingService.formatCoordinates`:
`` `${Math.abs(lat).toFixed(2)}°${latDir}, ${Math.abs(lon).toFixed(2)}°${lonDir}` ``. -/
def formatCoordinates (lat lon : ℚ) : String :=
  let latDir := if 0 ≤ lat then "N" else "S"
  let lonDir := if 0 ≤ lon then "E" else "W"
  toFixedStr 2 |lat| ++ "°" ++ latDir ++ ", " ++ toFixedStr 2 |lon| ++ "°" ++ lonDir

/-! ### AddressFormatter: `formatAddress` and `extractMicroLocation`

Optional JSON string fields are modelled as `String` with `""` for
missing/empty: inside `formatAddress` the source only ever uses the fields
through `||`-chains and truthiness tests, under which `undefined` and `""`
behave identically. -/

structure AddressRec where
  neighbourhood : String := ""
  suburb : String := ""
  quarter : String := ""
  district : String := ""
  subdistrict : String := ""
  locality : String := ""
  hamlet : String := ""
  city_district : String := ""
  city : String := ""
  town : String := ""
  village : String := ""
  state : String := ""
  province : String := ""
  country : String := ""
  postcode : String := ""
deriving DecidableEq

structure GeocodeResponse where
  display_name : String := ""
  address : AddressRec := {}
deriving DecidableEq

/-- Filter predicate of the `parts.length >= 3` fallback block of
`extractMicroLocation`. -/
def meaningfulPart (p : String) : Bool :=
  p ≠ "" && !startsWithDigit p && p.length > 2 &&
    !strContains (jsToLower p) "south africa" &&
    !strContains (jsToLower p) "gauteng" &&
    !strContains (jsToLower p) "province"

/-- `GeocodingService.extractMicroLocation`: parse `display_name` split on
commas; a JS out-of-range index (`undefined`, falsy) is rendered as `""`. -/
def extractMicroLocation (displayName : String) : String :=
  let parts := (jsSplitComma displayName).map jsTrim
  let fromFive : Option String :=
    if parts.length ≥ 5 then
      let microLocation := parts.getD 2 ""
      let district := parts.getD 3 ""
      let city := parts.getD 4 ""
      let isValidMicro :=
        microLocation ≠ "" && !startsWithDigit microLocation && microLocation.length > 2
      let isValidDistrict :=
        district ≠ "" && !startsWithDigit district && district.length > 2
      let isValidCity := city ≠ "" && !startsWithDigit city && city.length > 2
      if isValidMicro && isValidCity && microLocation ≠ city then
        some (microLocation ++ ", " ++ city)
      else if isValidDistrict && isValidCity && district ≠ city then
        some (district ++ ", " ++ city)
      else if isValidMicro && microLocation.length > 5 then
        some microLocation
      else if isValidCity then
        some city
      else none
    else none
  match fromFive with
  | some r => r
  | none =>
    let fromThree : Option String :=
      if parts.length ≥ 3 then
        let mp := parts.filter meaningfulPart
        if mp.length ≥ 2 then
          let specific :=
            strOr (if mp.length ≥ 3 then mp.getD (mp.length - 3) "" else "")
              (mp.getD (mp.length - 2) "")
          let broader := strOr (mp.getD (mp.length - 2) "") (mp.getD (mp.length - 1) "")
          if specific ≠ "" && broader ≠ "" && specific ≠ broader then
            some (specific ++ ", " ++ broader)
          else none
        else none
      else none
    match fromThree with
    | some r => r
    | none =>
      if displayName.length > 35 then (jsTake displayName 32) ++ "..." else displayName

/-- `GeocodingService.formatAddress`. -/
def formatAddress (r : GeocodeResponse) : String :=
  let a := r.address
  let microLocation := strOr a.neighbourhood (strOr a.hamlet a.locality)
  let district := strOr a.district (strOr a.subdistrict a.city_district)
  let suburb := strOr a.suburb a.quarter
  let city := strOr a.city (strOr a.town a.village)
  let parts : List String :=
    if microLocation ≠ "" then [microLocation]
    else if district ≠ "" then [district]
    else if suburb ≠ "" then [suburb]
    else []
  let parts :=
    if city ≠ "" && !(parts.contains city) then
      if microLocation ≠ "" || district ≠ "" then parts ++ [city]
      else if suburb ≠ "" && suburb ≠ city then parts ++ [city]
      else if suburb = "" then parts ++ [city]
      else parts
    else parts
  if parts.length ≥ 2 then parts.getD 0 "" ++ ", " ++ parts.getD 1 ""
  else if parts.length = 1 then parts.getD 0 ""
  else extractMicroLocation r.display_name

/-! ### GeocodingService state machine

The service's mutable fields (`cache`, `requestQueue`, `isProcessing`) become
a state record; the asynchronous events of a run — a caller invoking
`reverseGeocode`, the synchronous part of `processQueue`, the 1000 ms
`setTimeout` callback firing, and an HTTP response (or error) arriving for a
started task — become explicit transition functions. -/

/-- A task pushed onto `requestQueue`: the closure captures `(lat, lon)`; its
cache key is `keyFor lat lon` (the single call site passes exactly that). -/
structure GeoTask where
  lat : ℚ
  lon : ℚ
deriving DecidableEq

structure GeoState where
  /-- `cache : Map<string, string>`; newest write first, lookup takes the
  first match, so a later `set` shadows an earlier one. -/
  cache : List (String × String) := []
  /-- `requestQueue`, front of the FIFO first. -/
  queue : List GeoTask := []
  /-- tasks whose closure `processQueue` has already run: their HTTP request
  is in flight and its `subscribe` callback has not yet fired. -/
  started : List GeoTask := []
  isProcessing : Bool := false
deriving DecidableEq

def cacheGet (cache : List (String × String)) (k : String) : Option String :=
  match cache with
  | [] => none
  | (k₁, v) :: rest => if k₁ = k then some v else cacheGet rest k

def cacheSet (cache : List (String × String)) (k v : String) : List (String × String) :=
  (k, v) :: cache

/-- Synchronous body of `GeocodingService.processQueue`: bail out if a drain
is active or the queue is empty; otherwise shift the head task and run it
(issuing its HTTP request) under `isProcessing = true`. -/
def processQueue (s : GeoState) : GeoState :=
  if s.isProcessing then s
  else
    match s.queue with
    | [] => s
    | t :: rest =>
      { s with isProcessing := true, queue := rest, started := s.started ++ [t] }

/-- The `setTimeout(..., DELAY_BETWEEN_REQUESTS)` callback: clear
`isProcessing` and drain again. -/
def timerFire (s : GeoState) : GeoState :=
  processQueue { s with isProcessing := false }

/-- `GeocodingService.reverseGeocode`: cached key short-circuits; otherwise
return the coordinate fallback immediately and queue the lookup
(`queueGeocodingRequest` pushes the task and calls `processQueue`). -/
def reverseGeocode (s : GeoState) (lat lon : ℚ) : String × GeoState :=
  let key := keyFor lat lon
  match cacheGet s.cache key with
  | some v => (v, s)
  | none =>
    let fallback := formatCoordinates lat lon
    (fallback, processQueue { s with queue := s.queue ++ [⟨lat, lon⟩] })

/-- Result of a started task's network round trip. -/
inductive Outcome where
  /-- network / non-2xx / timeout error from the provider. -/
  | netErr : Outcome
  /-- a response whose JSON shape makes `formatAddress` throw (for example a
  missing `address` object); the `map` operator forwards the exception to the
  same `catchError`. -/
  | malformed : Outcome
  | ok : GeocodeResponse → Outcome
deriving DecidableEq

def Outcome.isFailure : Outcome → Bool
  | netErr => true
  | malformed => true
  | ok _ => false

/-- Label the `performReverseGeocode` pipeline delivers to its subscriber:
`map(response => formatAddress(response))` followed by
`catchError(() => of(formatCoordinates(lat, lon)))`. -/
def taskResult (lat lon : ℚ) : Outcome → String
  | .netErr => formatCoordinates lat lon
  | .malformed => formatCoordinates lat lon
  | .ok r => formatAddress r

/-- The `subscribe` `next` callback of a started task fires:
`this.cache.set(cacheKey, address)`. -/
def completeTask (s : GeoState) (lat lon : ℚ) (o : Outcome) : GeoState :=
  { s with
    cache := cacheSet s.cache (keyFor lat lon) (taskResult lat lon o),
    started := s.started.erase ⟨lat, lon⟩ }

/-- `GeocodingService.getCachedAddress`: `this.cache.get(key) || null` — the
empty string, being falsy, collapses to `null`. -/
def getCachedAddress (cache : List (String × String)) (lat lon : ℚ) : Option String :=
  match cacheGet cache (keyFor lat lon) with
  | none => none
  | some v => if v = "" then none else some v

/-- Number of network lookups the queue has accepted for cache key `k` and
not yet completed: tasks still queued plus tasks whose request is in flight.
Every accepted task eventually reaches the network (the queue supports no
cancellation), so this counts network lookups for `k`. -/
def pendingFor (s : GeoState) (k : String) : Nat :=
  (s.queue ++ s.started).countP (fun t => keyFor t.lat t.lon == k)

def initState : GeoState := {}

/-! ### ItemsBrowseComponent: sorting (`applySorting`)

The request-scoped `distance` field of an item is `undefined`, `Infinity`, or
a finite number; finite distances are modelled in `ℚ` (the comparator logic
is order-theoretic only). -/

inductive Dist where
  | unset : Dist
  | inf : Dist
  | fin : ℚ → Dist
deriving DecidableEq

/-- View of `RentalItem` restricted to the fields `applySorting` reads, plus
an `id` to observe stability. -/
structure SortItem where
  id : ℕ
  distance : Dist := .unset
  pricePerDay : ℚ := 0
  /-- `new Date(createdAt).getTime()` in milliseconds. -/
  createdAt : ℤ := 0
  averageRating : Option ℚ := none
deriving DecidableEq

/-- The `case 'distance'` comparator chain of `applySorting`. -/
def distCompare : Dist → Dist → ℚ
  | .unset, .unset => 0
  | .unset, _ => 1
  | _, .unset => -1
  | .inf, .inf => 0
  | .inf, _ => 1
  | _, .inf => -1
  | .fin a, .fin b => a - b

/-- Comparator body of `applySorting` (the `switch (sortField)`). -/
def compareItems (fld : String) (a b : SortItem) : ℚ :=
  if fld = "distance" then distCompare a.distance b.distance
  else if fld = "price" then a.pricePerDay - b.pricePerDay
  else if fld = "created" then ((a.createdAt - b.createdAt : ℤ) : ℚ)
  else if fld = "rating" then a.averageRating.getD 0 - b.averageRating.getD 0
  else ((b.createdAt - a.createdAt : ℤ) : ℚ)

/-- `ItemsBrowseComponent.getSortField`. -/
def getSortField (sort : String) : String :=
  if strContains sort "distance" then "distance"
  else if strContains sort "price" then "price"
  else if strContains sort "rating" then "rating"
  else if strContains sort "created" then "created"
  else "created"

/-- `ItemsBrowseComponent.getSortOrder`. -/
def getSortOrder (sort : String) : String :=
  if strContains sort "asc" then "asc" else "desc"

/-- Stable insertion of `x` into `l`: `x` goes before the first element it is
`le`-related to, hence before every element it ties with. -/
def insertStable (le : α → α → Bool) (x : α) : List α → List α
  | [] => [x]
  | y :: ys => if le x y then x :: y :: ys else y :: insertStable le x ys

/-- Stable sort by `le` (insertion sort).  ECMAScript requires
`Array.prototype.sort` to be a stable sort, and for a consistent comparator
the stable-sorted output is unique, so this models the source's
`[...items].sort(comparator)` exactly (with `le a b` standing for
`comparator(a, b) <= 0`). -/
def sortStable (le : α → α → Bool) : List α → List α
  | [] => []
  | x :: xs => insertStable le x (sortStable le xs)

/-- `ItemsBrowseComponent.applySorting`: a stable sort of a copy of the list
by the comparator, with `return sortOrder === 'asc' ? comparison :
-comparison` applied to the *entire* comparator result. -/
def applySorting (sort : String) (items : List SortItem) : List SortItem :=
  let fld := getSortField sort
  let ord := getSortOrder sort
  sortStable
    (fun a b =>
      decide ((if ord = "asc" then compareItems fld a b else -compareItems fld a b) ≤ 0))
    items

/-! ### ItemsBrowseComponent: response application and pagination -/

/-- The component state written by `calculateAndSetItems`, plus the
configuration it reads (`currentSort`, `currentPage`). `itemsPerPage = 12`. -/
structure BrowseState where
  items : List SortItem := []
  totalItems : ℕ := 0
  currentPage : ℕ := 1
  currentSort : String := "distance_asc"
deriving DecidableEq

def itemsPerPage : ℕ := 12

/-- `ItemsBrowseComponent.calculateAndSetItems`, distance computation already
performed on `resp`: sort, slice the current page, publish slice and
pre-slice total.  This step applies whatever response reaches it — the
component holds no request generation counter. -/
def calculateAndSetItems (st : BrowseState) (resp : List SortItem) : BrowseState :=
  let sorted := applySorting st.currentSort resp
  let startIndex := (st.currentPage - 1) * itemsPerPage
  { st with
    items := (sorted.drop startIndex).take itemsPerPage,
    totalItems := sorted.length }

/-! ### ItemsBrowseComponent: client-side filtering in `loadItems` -/

/-- View of `RentalItem` restricted to the fields relevant to filtering. -/
structure BrowseItem where
  id : ℕ
  title : String := ""
  description : String := ""
  category : String := ""
  pricePerDay : ℚ := 0
  location : String := ""
deriving DecidableEq

/-- The filter inputs `loadItems` reads: the free-text `searchQuery` and the
`filters` signal (fields actually consulted). -/
structure FilterOptions where
  searchQuery : String := ""
  category : String := ""
  priceMin : ℚ := 0
  priceMax : ℚ := 1000
  location : String := ""
deriving DecidableEq

/-- The `hasActiveFilters` condition of `loadItems` (JS truthiness of
`s && s.trim()`: both nonempty). -/
def hasActiveFilters (f : FilterOptions) : Bool :=
  (f.searchQuery ≠ "" && jsTrim f.searchQuery ≠ "") ||
    (f.category ≠ "" && jsTrim f.category ≠ "") ||
    (f.location ≠ "" && jsTrim f.location ≠ "") ||
    f.priceMin > 0 || f.priceMax < 1000

/-- The location predicate of `loadItems`:
`item.location && item.location.toLowerCase().includes(locationQuery)` with
`locationQuery = filters.location.toLowerCase()` (not trimmed). -/
def locationMatches (f : FilterOptions) (it : BrowseItem) : Bool :=
  it.location ≠ "" && strContains (jsToLower it.location) (jsToLower f.location)

/-- The complete client-side filtering `loadItems` performs on the
`getAllItems()` payload before `calculateAndSetItems`: in the
`hasActiveFilters` branch, a copy of the list optionally filtered by location
substring; in the other branch, the list unchanged. -/
def loadItemsFiltered (f : FilterOptions) (allItems : List BrowseItem) : List BrowseItem :=
  if hasActiveFilters f then
    if f.location ≠ "" && jsTrim f.location ≠ "" then allItems.filter (locationMatches f)
    else allItems
  else allItems

/-- Modelled from the spec (§4.6 step 2), for comparison with
`loadItemsFiltered`: "Apply filters in this fixed order: text match
(case-insensitive substring over title+description) → category equality
(case-insensitive) → price-per-day range → location substring match.  Each
filter is a no-op if its corresponding field in `filters` is
empty/zero/default." -/
def specFilterPipeline (f : FilterOptions) (allItems : List BrowseItem) : List BrowseItem :=
  let step1 :=
    if jsTrim f.searchQuery ≠ "" then
      allItems.filter fun it =>
        strContains (jsToLower (it.title ++ " " ++ it.description)) (jsToLower f.searchQuery)
    else allItems
  let step2 :=
    if jsTrim f.category ≠ "" then
      step1.filter (fun it => jsToLower it.category = jsToLower f.category)
    else step1
  let step3a := if f.priceMin > 0 then step2.filter (fun it => f.priceMin ≤ it.pricePerDay) else step2
  let step3b := if f.priceMax < 1000 then step3a.filter (fun it => it.pricePerDay ≤ f.priceMax) else step3a
  if jsTrim f.location ≠ "" then step3b.filter (locationMatches f) else step3b

/-! ### ItemsBrowseComponent: forward geocode requests in `calculateDistances`

`calculateDistances` maps every item to an `async` closure and awaits them
with `Promise.all`.  Each closure runs synchronously up to its first `await`
— that is, every closure that needs a forward lookup issues its
`this.http.get(nominatim/search?q=address)` request *before any* of the
responses is processed, and none of these requests goes anywhere near the
`GeocodingService` rate-limited `requestQueue`. -/

/-- `latitude? : number` under JS truthiness: `some q` with `q ≠ 0` is
truthy; `none` (undefined) and `some 0` are falsy. -/
def truthyCoord (o : Option ℚ) : Bool :=
  match o with
  | none => false
  | some q => q ≠ 0

/-- Coordinate-bearing view of an item as `calculateDistances` reads it. -/
structure GeoItem where
  id : ℕ
  latitude : Option ℚ := none
  longitude : Option ℚ := none
  location : String := ""
deriving DecidableEq

/-- Component-level `geocodeCache`: `absent`, or `some none` for a cached
`null` (failed lookup), or `some (some coords)`. -/
def ForwardCache : Type := String → Option (Option (ℚ × ℚ))

/-- Whether the item's closure reaches `geocodeAddress` with a request to
issue: coordinates missing or zero, a non-empty non-placeholder location, and
no truthy cache entry for the address (`geocodeCache[address]` absent or
`null` both fail the truthiness guard, so the request is issued). -/
def needsForwardLookup (cache : ForwardCache) (it : GeoItem) : Bool :=
  (!truthyCoord it.latitude || !truthyCoord it.longitude) &&
    it.location ≠ "" && it.location ≠ "Location not available" &&
    (cache it.location == none || cache it.location == some none)

/-- Addresses whose forward `http.get` requests one `calculateDistances`
batch puts in flight simultaneously. -/
def forwardRequests (cache : ForwardCache) (items : List GeoItem) : List String :=
  (items.filter (needsForwardLookup cache)).map (·.location)

/-! ### ItemsBrowseComponent: haversine distance (`calculateDistances`)

The arithmetic of the `haversine` closure is over `ℝ` (`Math.sin`,
`Math.cos`, `Math.atan2`, `Math.sqrt`). -/

/-- `toRad` closure: `(x * Math.PI) / 180`. -/
noncomputable def toRad (x : ℝ) : ℝ := x * Real.pi / 180

open Classical in
/-- JS `Math.atan2(y, x)` (signed-zero distinctions dropped — no claim
involves them). -/
noncomputable def atan2 (y x : ℝ) : ℝ :=
  if 0 < x then Real.arctan (y / x)
  else if x < 0 then
    if 0 ≤ y then Real.arctan (y / x) + Real.pi else Real.arctan (y / x) - Real.pi
  else if 0 < y then Real.pi / 2
  else if y < 0 then -(Real.pi / 2)
  else 0

/-- The local `a` of the `haversine` closure:
`sin(dLat/2)·sin(dLat/2) + cos(toRad lat1)·cos(toRad lat2)·sin(dLon/2)·sin(dLon/2)`. -/
noncomputable def havA (lat1 lon1 lat2 lon2 : ℝ) : ℝ :=
  Real.sin (toRad (lat2 - lat1) / 2) * Real.sin (toRad (lat2 - lat1) / 2) +
    Real.cos (toRad lat1) * Real.cos (toRad lat2) *
      Real.sin (toRad (lon2 - lon1) / 2) * Real.sin (toRad (lon2 - lon1) / 2)

/-- The `haversine` closure of `calculateDistances`: with
`c = 2 * atan2(√a, √(1-a))`, the distance is `R * c`, `R = 6371` km. -/
noncomputable def haversine (lat1 lon1 lat2 lon2 : ℝ) : ℝ :=
  6371 *
    (2 * atan2 (Real.sqrt (havA lat1 lon1 lat2 lon2))
      (Real.sqrt (1 - havA lat1 lon1 lat2 lon2)))

/-- `latitude? : number` under JS truthiness, real-valued world. -/
def truthyCoordR : Option ℝ → Prop
  | none => False
  | some x => x ≠ 0

/-- Item as `calculateDistances` reads it, real-valued coordinates. -/
structure RItem where
  id : ℕ
  latitude : Option ℝ := none
  longitude : Option ℝ := none
  location : String := ""

open Classical in
/-- Distance assigned to one item by `calculateDistances` when a user
location is available (when it is not, every distance is `undefined` and no
computation runs — not needed by any claim).  `some d` models a finite
`distance = d`; `none` models `distance = Infinity`.  `geocode` is the
outcome of the (awaited) forward lookup by address: `none` for a failed or
empty lookup, otherwise the parsed coordinates. -/
noncomputable def calcDistance (uLat uLon : ℝ) (geocode : String → Option (ℝ × ℝ))
    (it : RItem) : Option ℝ :=
  let c0 : Option ℝ × Option ℝ := (it.latitude, it.longitude)
  let c1 : Option ℝ × Option ℝ :=
    if (¬ truthyCoordR it.latitude ∨ ¬ truthyCoordR it.longitude) ∧
        it.location ≠ "" ∧ it.location ≠ "Location not available" then
      match geocode it.location with
      | some g => (some g.1, some g.2)
      | none => c0
    else c0
  if truthyCoordR c1.1 ∧ truthyCoordR c1.2 then
    some (haversine uLat uLon ((c1.1).getD 0) ((c1.2).getD 0))
  else none

/-! ### Shared helper lemmas -/

lemma cacheGet_set_self (cache : List (String × String)) (k v : String) :
    cacheGet (cacheSet cache k v) k = some v := by
  simp [cacheGet, cacheSet]

/-- The synchronous drain step only moves a task from the queue to the
in-flight list; it does not change how many lookups are pending for any key. -/
lemma pendingFor_processQueue (s : GeoState) (k : String) :
    pendingFor (processQueue s) k = pendingFor s k := by
  unfold processQueue pendingFor
  by_cases hp : s.isProcessing = true
  · simp [hp]
  · cases hq : s.queue with
    | nil => simp [hp, hq]
    | cons t rest =>
      simp only [hp, hq, Bool.false_eq_true, if_false]
      simp [List.countP_append, List.countP_cons]
      omega

/-- Closed-form evaluation of `toFixedStr` for non-negative inputs, given the
rounded mantissa. -/
lemma toFixedStr_eval (d : Nat) (q : ℚ) (m : ℤ) (hq : ¬ q < 0) (hm : fixedMant d q = m) :
    toFixedStr d q =
      Nat.repr (m.toNat / 10 ^ d) ++ "." ++
        String.mk (List.replicate (d - (Nat.repr (m.toNat % 10 ^ d)).length) '0') ++
          Nat.repr (m.toNat % 10 ^ d) := by
  unfold toFixedStr
  rw [hm, if_neg hq]
  rfl

/-- Closed-form evaluation of `toFixedStr` for negative inputs. -/
lemma toFixedStr_eval_neg (d : Nat) (q : ℚ) (m : ℤ) (hq : q < 0) (hm : fixedMant d q = m) :
    toFixedStr d q =
      "-" ++ Nat.repr (m.toNat / 10 ^ d) ++ "." ++
        String.mk (List.replicate (d - (Nat.repr (m.toNat % 10 ^ d)).length) '0') ++
          Nat.repr (m.toNat % 10 ^ d) := by
  unfold toFixedStr
  rw [hm, if_pos hq]

/-- C1, corrected claim, general form: `reverseGeocode` deduplicates only
against the cache.  Every call on an uncached key returns the coordinate
fallback and hands one more background task for that key to the queue (the
service keeps no record of already-queued keys); a call on a cached key
returns the cached label and leaves the state untouched. -/
theorem C1_amended (s : GeoState) (lat lon : ℚ) :
    (cacheGet s.cache (keyFor lat lon) = none →
      (reverseGeocode s lat lon).1 = formatCoordinates lat lon ∧
        pendingFor (reverseGeocode s lat lon).2 (keyFor lat lon) =
          pendingFor s (keyFor lat lon) + 1) ∧
    ∀ v, cacheGet s.cache (keyFor lat lon) = some v →
      reverseGeocode s lat lon = (v, s) := by
  constructor
  · intro h
    simp only [reverseGeocode]
    rw [h]
    refine ⟨rfl, ?_⟩
    show pendingFor (processQueue { s with queue := s.queue ++ [⟨lat, lon⟩] })
        (keyFor lat lon) = _
    rw [pendingFor_processQueue]
    unfold pendingFor
    simp [List.countP_append, List.countP_cons]
    omega
  · intro v h
    simp only [reverseGeocode]
    rw [h]

/-- C1 witness: on the empty initial state, one `resolve` call for `(1, 2)`
takes the uncached branch and queues exactly one task; on a state whose cache
holds the key, `resolve` returns the cached label and changes nothing. -/
theorem C1_amended_witness :
    (cacheGet initState.cache (keyFor 1 2) = none ∧
      (reverseGeocode initState 1 2).1 = formatCoordinates 1 2 ∧
        pendingFor (reverseGeocode initState 1 2).2 (keyFor 1 2) =
          pendingFor initState (keyFor 1 2) + 1) ∧
    reverseGeocode { initState with cache := [(keyFor 1 2, "Sandton, Johannesburg")] } 1 2 =
      ("Sandton, Johannesburg", { initState with cache := [(keyFor 1 2, "Sandton, Johannesburg")] }) :=
  ⟨⟨rfl, (C1_amended initState 1 2).1 rfl⟩,
    (C1_amended { initState with cache := [(keyFor 1 2, "Sandton, Johannesburg")] } 1 2).2
      "Sandton, Johannesburg" (by simp [cacheGet])⟩

/-- C1 counterexample: calling `resolve` twice for the same uncached
coordinate `(1, 2)` — the second call before the first background task has
completed (no completion event occurs between the calls) — leaves two
background lookup tasks for that key handed to the queue, not exactly one:
the network will see two reverse lookups for one key. -/
theorem C1_counterexample :
    pendingFor (reverseGeocode (reverseGeocode initState 1 2).2 1 2).2 (keyFor 1 2) = 2 ∧
      pendingFor (reverseGeocode (reverseGeocode initState 1 2).2 1 2).2 (keyFor 1 2) ≠ 1 := by
  have h : pendingFor (reverseGeocode (reverseGeocode initState 1 2).2 1 2).2 (keyFor 1 2) = 2 := by
    simp [reverseGeocode, processQueue, initState, pendingFor, cacheGet]
  exact ⟨h, by rw [h]; omega⟩

/-- No transition other than a task completion touches the cache. -/
lemma processQueue_cache (s : GeoState) : (processQueue s).cache = s.cache := by
  unfold processQueue
  by_cases h : s.isProcessing = true
  · simp [h]
  · cases hq : s.queue <;> simp [h, hq]

lemma timerFire_cache (s : GeoState) : (timerFire s).cache = s.cache := by
  unfold timerFire
  rw [processQueue_cache]

lemma reverseGeocode_cache (s : GeoState) (la lo : ℚ) :
    ((reverseGeocode s la lo).2).cache = s.cache := by
  simp only [reverseGeocode]
  cases h : cacheGet s.cache (keyFor la lo) <;> simp [h, processQueue_cache]

/-- Writing one key leaves lookups of other keys unchanged. -/
lemma cacheGet_set_ne (c : List (String × String)) (k k₁ v : String) (h : k₁ ≠ k) :
    cacheGet (cacheSet c k₁ v) k = cacheGet c k := by
  simp [cacheGet, cacheSet, h]

/-- C7: when the background reverse lookup for a coordinate fails — network
error or a malformed response that makes the formatter throw — the label
written to the cache for that key is the deterministic coordinate-formatted
fallback string (never an error value: the cache stores only `String`s);
afterwards a `resolve` call for the same key returns the cached fallback and
leaves the state untouched, so no new network task is created while the
entry lives. -/
theorem C7_thm (s : GeoState) (lat lon : ℚ) (o : Outcome) (hf : o.isFailure = true) :
    cacheGet (completeTask s lat lon o).cache (keyFor lat lon) =
        some (formatCoordinates lat lon) ∧
      reverseGeocode (completeTask s lat lon o) lat lon =
        (formatCoordinates lat lon, completeTask s lat lon o) ∧
      ∀ (s₂ : GeoState) (v : String), cacheGet s₂.cache (keyFor lat lon) = some v →
        (∀ la lo : ℚ, cacheGet ((reverseGeocode s₂ la lo).2).cache (keyFor lat lon) = some v) ∧
          cacheGet (processQueue s₂).cache (keyFor lat lon) = some v ∧
          cacheGet (timerFire s₂).cache (keyFor lat lon) = some v ∧
          ∀ (la lo : ℚ) (o₂ : Outcome), keyFor la lo ≠ keyFor lat lon →
            cacheGet (completeTask s₂ la lo o₂).cache (keyFor lat lon) = some v := by
  have hr : taskResult lat lon o = formatCoordinates lat lon := by
    cases o with
    | netErr => rfl
    | malformed => rfl
    | ok r => simp [Outcome.isFailure] at hf
  have hc : cacheGet (completeTask s lat lon o).cache (keyFor lat lon) =
      some (formatCoordinates lat lon) := by
    show cacheGet (cacheSet s.cache (keyFor lat lon) (taskResult lat lon o)) _ = _
    rw [cacheGet_set_self, hr]
  refine ⟨hc, ?_, ?_⟩
  · simp only [reverseGeocode]
    rw [hc]
  · intro s₂ v hv
    refine ⟨?_, ?_, ?_, ?_⟩
    · intro la lo
      rw [reverseGeocode_cache]
      exact hv
    · rw [processQueue_cache]
      exact hv
    · rw [timerFire_cache]
      exact hv
    · intro la lo o₂ hne
      show cacheGet (cacheSet s₂.cache (keyFor la lo) (taskResult la lo o₂)) _ = _
      rw [cacheGet_set_ne _ _ _ _ hne]
      exact hv

/-- C7 witness: failing completion of a lookup for `(1, 2)` on the initial
state caches the fallback, and the next `resolve` for `(1, 2)` is a pure
cache hit. -/
theorem C7_witness :
    Outcome.netErr.isFailure = true ∧
      cacheGet (completeTask initState 1 2 .netErr).cache (keyFor 1 2) =
          some (formatCoordinates 1 2) ∧
        reverseGeocode (completeTask initState 1 2 .netErr) 1 2 =
          (formatCoordinates 1 2, completeTask initState 1 2 .netErr) :=
  ⟨rfl, (C7_thm initState 1 2 .netErr rfl).1, (C7_thm initState 1 2 .netErr rfl).2.1⟩

/-- C8, corrected claim, general form: `reverseGeocode` performs no
coordinate-range validation whatsoever.  For any uncached coordinate — in or
out of range — the caller receives the fallback label computed from the raw
values (this half of the claim holds), a background lookup task is handed to
the queue, and when that task completes a cache entry for the key is
created. -/
theorem C8_amended (s : GeoState) (lat lon : ℚ)
    (h : cacheGet s.cache (keyFor lat lon) = none) (o : Outcome) :
    (reverseGeocode s lat lon).1 = formatCoordinates lat lon ∧
      pendingFor (reverseGeocode s lat lon).2 (keyFor lat lon) =
          pendingFor s (keyFor lat lon) + 1 ∧
        cacheGet (completeTask (reverseGeocode s lat lon).2 lat lon o).cache
            (keyFor lat lon) = some (taskResult lat lon o) := by
  refine ⟨?_, ?_, ?_⟩
  · simp only [reverseGeocode]
    rw [h]
  · simp only [reverseGeocode]
    rw [h]
    show pendingFor (processQueue { s with queue := s.queue ++ [⟨lat, lon⟩] })
        (keyFor lat lon) = _
    rw [pendingFor_processQueue]
    unfold pendingFor
    simp [List.countP_append, List.countP_cons]
    omega
  · show cacheGet (cacheSet _ _ _) _ = _
    exact cacheGet_set_self _ _ _

/-- C8 witness: the out-of-range coordinate `(91, 200)` (latitude beyond 90,
longitude beyond 180) is processed exactly like a valid one. -/
theorem C8_witness :
    cacheGet initState.cache (keyFor 91 200) = none ∧
      (reverseGeocode initState 91 200).1 = formatCoordinates 91 200 ∧
        pendingFor (reverseGeocode initState 91 200).2 (keyFor 91 200) =
            pendingFor initState (keyFor 91 200) + 1 ∧
          cacheGet
              (completeTask (reverseGeocode initState 91 200).2 91 200 .netErr).cache
              (keyFor 91 200) = some (taskResult 91 200 .netErr) :=
  ⟨rfl, C8_amended initState 91 200 rfl .netErr⟩

/-- C8 counterexample: for the out-of-range coordinate `(91, 200)`, `resolve`
does hand a lookup task to the queue (the task is immediately started, i.e.
sent to the network), and completing that lookup does create a cache entry
for the key — contradicting "rejected ... with no cache entry created".  The
caller does receive the raw-value fallback, as the claim says. -/
theorem C8_counterexample :
    (reverseGeocode initState 91 200).1 = formatCoordinates 91 200 ∧
      (reverseGeocode initState 91 200).2.started = [⟨91, 200⟩] ∧
        cacheGet (completeTask (reverseGeocode initState 91 200).2 91 200 .netErr).cache
            (keyFor 91 200) ≠ none := by
  refine ⟨rfl, ?_, ?_⟩
  · simp [reverseGeocode, cacheGet, initState, processQueue]
  · show cacheGet (cacheSet _ _ _) _ ≠ none
    rw [cacheGet_set_self]
    simp

/-- C10: `getCachedAddress` returns `null` exactly when the cache has no
entry for the quantized key or the cached label is the empty string
(`cache.get(key) || null` collapses the falsy `""`); the empty label is
reachable — a provider response with empty `display_name` and no usable
address fields formats to `""`, and completing such a lookup writes `""`
into the cache, after which the entry is present yet `getCachedAddress`
reports `null`. -/
theorem C10_thm (cache : List (String × String)) (lat lon : ℚ) :
    (getCachedAddress cache lat lon = none ↔
        cacheGet cache (keyFor lat lon) = none ∨
          cacheGet cache (keyFor lat lon) = some "") ∧
      formatAddress { display_name := "", address := {} } = "" ∧
        cacheGet (completeTask initState lat lon (.ok { display_name := "" })).cache
            (keyFor lat lon) = some "" ∧
          getCachedAddress (completeTask initState lat lon (.ok { display_name := "" })).cache
            lat lon = none := by
  have hfmt : formatAddress { display_name := "", address := {} } = "" := by decide
  have hcache : cacheGet (completeTask initState lat lon (.ok { display_name := "" })).cache
      (keyFor lat lon) = some "" := by
    show cacheGet (cacheSet _ _ _) _ = _
    rw [cacheGet_set_self]
    exact congrArg some hfmt
  refine ⟨?_, hfmt, hcache, ?_⟩
  · unfold getCachedAddress
    cases hc : cacheGet cache (keyFor lat lon) with
    | none => simp
    | some v =>
      by_cases hv : v = ""
      · simp [hv]
      · simp [hv]
  · unfold getCachedAddress
    rw [hcache]
    simp

/-- C9 counterexample: the coordinates `(1.00004, 0)` and `(1.00006, 0)`
differ by `0.00002 < 0.00005` in latitude (and `0` in longitude), yet their
cache keys differ: the pair straddles the `1.00005` rounding boundary, so
`toFixed(4)` renders `"1.0000"` for one and `"1.0001"` for the other. -/
theorem C9_counterexample :
    |(1.00004 : ℚ) - 1.00006| < 0.00005 ∧ |(0 : ℚ) - 0| < 0.00005 ∧
      keyFor 1.00004 0 ≠ keyFor 1.00006 0 := by
  have h1 : fixedMant 4 (1.00004 : ℚ) = 10000 := by
    unfold fixedMant
    rw [abs_of_nonneg (by norm_num), round_eq]
    norm_num
  have h2 : fixedMant 4 (1.00006 : ℚ) = 10001 := by
    unfold fixedMant
    rw [abs_of_nonneg (by norm_num), round_eq]
    norm_num
  have h0 : fixedMant 4 (0 : ℚ) = 0 := by
    unfold fixedMant
    rw [abs_of_nonneg le_rfl, round_eq]
    norm_num
  refine ⟨by rw [abs_lt]; norm_num, by rw [abs_lt]; norm_num, ?_⟩
  unfold keyFor
  rw [toFixedStr_eval 4 _ _ (by norm_num) h1, toFixedStr_eval 4 _ _ (by norm_num) h2,
    toFixedStr_eval 4 _ _ (by norm_num) h0]
  decide

/-- C9, corrected claim: the key derivation quantizes each component into its
`toFixed(4)` rendering (sign plus rounded magnitude).  Two coordinates
receive the same cache key whenever, component by component, the signs agree
and the magnitudes round to the same 4-decimal value — coordinates inside
one rounding cell always collapse to one key, but a difference below
`0.00005°` alone does not guarantee this at a cell boundary. -/
theorem C9_amended (lat1 lon1 lat2 lon2 : ℚ)
    (hlats : lat1 < 0 ↔ lat2 < 0) (hlat : fixedMant 4 lat1 = fixedMant 4 lat2)
    (hlons : lon1 < 0 ↔ lon2 < 0) (hlon : fixedMant 4 lon1 = fixedMant 4 lon2) :
    keyFor lat1 lon1 = keyFor lat2 lon2 := by
  have e1 : (if lat1 < 0 then "-" else "") = (if lat2 < 0 then "-" else "") := by
    by_cases h : lat1 < 0
    · rw [if_pos h, if_pos (hlats.mp h)]
    · rw [if_neg h, if_neg (fun hh => h (hlats.mpr hh))]
  have e2 : (if lon1 < 0 then "-" else "") = (if lon2 < 0 then "-" else "") := by
    by_cases h : lon1 < 0
    · rw [if_pos h, if_pos (hlons.mp h)]
    · rw [if_neg h, if_neg (fun hh => h (hlons.mpr hh))]
  unfold keyFor toFixedStr
  rw [hlat, hlon, e1, e2]

/-- C9 witness: `(1.00001, 5)` and `(1.00002, 5)` lie in the same rounding
cell, and indeed share a key. -/
theorem C9_amended_witness :
    fixedMant 4 (1.00001 : ℚ) = fixedMant 4 (1.00002 : ℚ) ∧
      keyFor 1.00001 5 = keyFor 1.00002 5 := by
  have ha : fixedMant 4 (1.00001 : ℚ) = 10000 := by
    unfold fixedMant
    rw [abs_of_nonneg (by norm_num), round_eq]
    norm_num
  have hb : fixedMant 4 (1.00002 : ℚ) = 10000 := by
    unfold fixedMant
    rw [abs_of_nonneg (by norm_num), round_eq]
    norm_num
  exact ⟨ha.trans hb.symm,
    C9_amended 1.00001 5 1.00002 5 (by norm_num) (ha.trans hb.symm) Iff.rfl rfl⟩


/-- Membership in a stable insertion. -/
lemma insertStable_mem {α : Type} (le : α → α → Bool) (x b : α) :
    ∀ l : List α, b ∈ insertStable le x l ↔ b = x ∨ b ∈ l := by
  intro l
  induction l with
  | nil => simp [insertStable]
  | cons y ys ih =>
    rw [insertStable]
    by_cases h : le x y
    · simp [h]
    · simp [h, ih]
      tauto

/-- Stable insertion permutes. -/
lemma insertStable_perm {α : Type} (le : α → α → Bool) (x : α) :
    ∀ l : List α, (insertStable le x l).Perm (x :: l) := by
  intro l
  induction l with
  | nil => simp [insertStable]
  | cons y ys ih =>
    rw [insertStable]
    by_cases h : le x y
    · simp [h]
    · rw [if_neg h]
      exact (ih.cons y).trans (List.Perm.swap x y ys)

/-- The stable sort returns a permutation of its input. -/
lemma sortStable_perm {α : Type} (le : α → α → Bool) :
    ∀ l : List α, (sortStable le l).Perm l := by
  intro l
  induction l with
  | nil => simp [sortStable]
  | cons x xs ih =>
    rw [sortStable]
    exact (insertStable_perm le x (sortStable le xs)).trans (ih.cons x)

lemma insertStable_pairwise {α : Type} (le : α → α → Bool)
    (htot : ∀ a b, le a b = true ∨ le b a = true)
    (htrans : ∀ a b c, le a b = true → le b c = true → le a c = true)
    (x : α) (l : List α) (hl : l.Pairwise (fun a b => le a b = true)) :
    (insertStable le x l).Pairwise (fun a b => le a b = true) := by
  induction l with
  | nil => simp [insertStable]
  | cons y ys ih =>
    have hy := List.pairwise_cons.mp hl
    rw [insertStable]
    by_cases h : le x y = true
    · rw [if_pos h]
      refine List.pairwise_cons.mpr ⟨?_, hl⟩
      intro b hb
      rcases List.mem_cons.mp hb with rfl | hb
      · exact h
      · exact htrans x y b h (hy.1 b hb)
    · rw [if_neg h]
      refine List.pairwise_cons.mpr ⟨?_, ih hy.2⟩
      intro b hb
      have hyx : le y x = true := (htot x y).resolve_left h
      rcases (insertStable_mem le x b ys).mp hb with rfl | hb
      · exact hyx
      · exact hy.1 b hb

/-- For a total transitive `le`, the stable sort's output is `le`-ordered
pairwise. -/
lemma sortStable_pairwise {α : Type} (le : α → α → Bool)
    (htot : ∀ a b, le a b = true ∨ le b a = true)
    (htrans : ∀ a b c, le a b = true → le b c = true → le a c = true) :
    ∀ l : List α, (sortStable le l).Pairwise (fun a b => le a b = true) := by
  intro l
  induction l with
  | nil => simp [sortStable]
  | cons x xs ih =>
    rw [sortStable]
    exact insertStable_pairwise le htot htrans x _ ih

/-- The distance comparator is antisymmetric in sign. -/
lemma distCompare_neg (a b : Dist) : distCompare b a = -distCompare a b := by
  cases a <;> cases b <;> simp [distCompare]

lemma distCompare_nonneg_total (a b : Dist) :
    0 ≤ distCompare a b ∨ 0 ≤ distCompare b a := by
  rcases le_total 0 (distCompare a b) with h | h
  · exact Or.inl h
  · right
    rw [distCompare_neg]
    linarith

lemma distCompare_nonneg_trans (a b c : Dist) (h1 : 0 ≤ distCompare a b)
    (h2 : 0 ≤ distCompare b c) : 0 ≤ distCompare a c := by
  cases a <;> cases b <;> cases c <;>
    simp only [distCompare] at h1 h2 ⊢ <;> try linarith

lemma distCompare_nonpos_total (a b : Dist) :
    distCompare a b ≤ 0 ∨ distCompare b a ≤ 0 := by
  rcases distCompare_nonneg_total b a with h | h
  · left
    rw [distCompare_neg] at h
    linarith
  · right
    rw [distCompare_neg] at h
    linarith

lemma distCompare_nonpos_trans (a b c : Dist) (h1 : distCompare a b ≤ 0)
    (h2 : distCompare b c ≤ 0) : distCompare a c ≤ 0 := by
  have hba : 0 ≤ distCompare b a := by rw [distCompare_neg]; linarith
  have hcb : 0 ≤ distCompare c b := by rw [distCompare_neg]; linarith
  have := distCompare_nonneg_trans c b a hcb hba
  rw [distCompare_neg] at this
  linarith

/-- `applySorting` under `distance` / `asc`, with the comparator condition
rewritten to the `distCompare` sign. -/
lemma applySorting_asc_eq (L : List SortItem) :
    applySorting "distance_asc" L =
      sortStable (fun a b => decide (distCompare a.distance b.distance ≤ 0)) L := by
  unfold applySorting
  congr 1

/-- `applySorting` under `distance` / `desc`: the negated comparator
condition is the reversed `distCompare` sign. -/
lemma applySorting_desc_eq (L : List SortItem) :
    applySorting "distance_desc" L =
      sortStable (fun a b => decide (0 ≤ distCompare a.distance b.distance)) L := by
  simp only [applySorting]
  congr 1
  funext a b
  rw [show getSortOrder "distance_desc" = "desc" from rfl,
    show getSortField "distance_desc" = "distance" from rfl]
  rw [if_neg (by decide)]
  rw [show compareItems "distance" a b = distCompare a.distance b.distance from rfl]
  apply decide_eq_decide.mpr
  constructor <;> intro h <;> linarith

/-- C2 counterexample: both parts of the claim fail on `applySorting`.
Under `order = desc` the negation is applied to the whole comparator result,
placement included, so an unset-distance entry sorts *first*, not last
(`[fin 1, unset]` sorts to `[unset, fin 1]`); and even under `asc` the
original relative order among non-finite entries is not preserved —
`[unset, inf]` sorts to `[inf, unset]` because the comparator orders
`Infinity` strictly before `undefined`. -/
theorem C2_counterexample :
    (applySorting "distance_desc"
        [{ id := 1, distance := .fin 1 }, { id := 2, distance := .unset }]).map SortItem.id
        = [2, 1] ∧
      (applySorting "distance_asc"
        [{ id := 1, distance := .unset }, { id := 2, distance := .inf }]).map SortItem.id
        = [2, 1] := by
  constructor
  · decide
  · decide

/-- C2, corrected claim.  `applySorting` by distance permutes its input and
orders it by the sign of `distCompare`: ascending output is pairwise
`distCompare ≤ 0`-ordered, and `order = desc` negates the *entire* comparator
result — placement rules included — so descending output is pairwise
`0 ≤ distCompare`-ordered, the exact reverse arrangement.  Since the
comparator puts any finite distance strictly before `Infinity` and `unset`,
and `Infinity` strictly before `unset`, missing-data entries come after all
finite ones only under `asc`; under `desc` they come first.  On the §8-style
list this gives `asc = [fin 1, fin 2, fin 3, inf, unset, unset]` and
`desc = [unset, unset, inf, fin 3, fin 2, fin 1]`, each non-finite group in
original relative order. -/
theorem C2_amended :
    (∀ (sort : String) (L : List SortItem), (applySorting sort L).Perm L) ∧
      (∀ L : List SortItem, (applySorting "distance_asc" L).Pairwise
          (fun a b => distCompare a.distance b.distance ≤ 0)) ∧
      (∀ L : List SortItem, (applySorting "distance_desc" L).Pairwise
          (fun a b => 0 ≤ distCompare a.distance b.distance)) ∧
      (∀ q : ℚ, distCompare (.fin q) .unset < 0 ∧ distCompare (.fin q) .inf < 0 ∧
          distCompare .inf .unset < 0) ∧
      (applySorting "distance_asc"
        [{ id := 1, distance := .fin 3 }, { id := 2, distance := .unset },
          { id := 3, distance := .fin 1 }, { id := 4, distance := .inf },
          { id := 5, distance := .fin 2 }, { id := 6, distance := .unset }]).map SortItem.id
        = [3, 5, 1, 4, 2, 6] ∧
      (applySorting "distance_desc"
        [{ id := 1, distance := .fin 3 }, { id := 2, distance := .unset },
          { id := 3, distance := .fin 1 }, { id := 4, distance := .inf },
          { id := 5, distance := .fin 2 }, { id := 6, distance := .unset }]).map SortItem.id
        = [2, 6, 4, 1, 5, 3] := by
  refine ⟨?_, ?_, ?_, ?_, ?_, ?_⟩
  · intro sort L
    simp only [applySorting]
    exact sortStable_perm _ L
  · intro L
    rw [applySorting_asc_eq]
    have h := sortStable_pairwise
      (fun a b : SortItem => decide (distCompare a.distance b.distance ≤ 0))
      (fun a b => by
        simp only [decide_eq_true_eq]
        exact distCompare_nonpos_total a.distance b.distance)
      (fun a b c h1 h2 => by
        simp only [decide_eq_true_eq] at h1 h2 ⊢
        exact distCompare_nonpos_trans a.distance b.distance c.distance h1 h2) L
    exact h.imp (fun hab => of_decide_eq_true hab)
  · intro L
    rw [applySorting_desc_eq]
    have h := sortStable_pairwise
      (fun a b : SortItem => decide (0 ≤ distCompare a.distance b.distance))
      (fun a b => by
        simp only [decide_eq_true_eq]
        exact distCompare_nonneg_total a.distance b.distance)
      (fun a b c h1 h2 => by
        simp only [decide_eq_true_eq] at h1 h2 ⊢
        exact distCompare_nonneg_trans a.distance b.distance c.distance h1 h2) L
    exact h.imp (fun hab => of_decide_eq_true hab)
  · intro q
    refine ⟨?_, ?_, ?_⟩ <;> norm_num [distCompare]
  · have hf : getSortField "distance_asc" = "distance" := rfl
    have ho : getSortOrder "distance_asc" = "asc" := rfl
    simp only [applySorting]
    rw [hf, ho]
    norm_num [sortStable, insertStable, compareItems, distCompare]
  · have hf : getSortField "distance_desc" = "distance" := rfl
    have ho : getSortOrder "distance_desc" = "desc" := rfl
    simp only [applySorting]
    rw [hf, ho]
    norm_num [sortStable, insertStable, compareItems, distCompare]
    decide

/-- C3 counterexample: the component applies whatever response reaches
`calculateAndSetItems`, with no request generation tracking.  Applying the
newer search's response (the item with id 5) and then the stale older
response (the item with id 4) leaves the stale response on display. -/
theorem C3_counterexample :
    (calculateAndSetItems
          (calculateAndSetItems { currentSort := "created_desc" } [{ id := 5 }])
          [{ id := 4 }]).items = [{ id := 4 }] ∧
      (calculateAndSetItems
          (calculateAndSetItems { currentSort := "created_desc" } [{ id := 5 }])
          [{ id := 4 }]).items ≠ [{ id := 5 }] := by
  constructor
  · decide
  · decide

/-- C3, corrected claim: response application is last-writer-wins.  There is
no generation counter anywhere in `loadItems`/`calculateAndSetItems`; the
displayed items and total are exactly those of whichever response was
applied last, regardless of which search was issued first. -/
theorem C3_amended (st : BrowseState) (r1 r2 : List SortItem) :
    calculateAndSetItems (calculateAndSetItems st r1) r2 = calculateAndSetItems st r2 :=
  rfl

/-- C4, corrected claim: the *reverse* side is indeed serialized — a drain
step is a no-op while a task is already running, and one drain step starts at
most one task — but `calculateDistances` issues its *forward* geocode
lookups directly over `http.get`, never through the queue (`forwardRequests`
depends on no queue state at all), and a single batch with two
uncached-address items puts both requests in flight simultaneously. -/
theorem C4_amended :
    (∀ s : GeoState, s.isProcessing = true → processQueue s = s) ∧
      (∀ s : GeoState, (processQueue s).started.length ≤ s.started.length + 1) ∧
        forwardRequests (fun _ => none)
            [{ id := 1, location := "10 Oak St" }, { id := 2, location := "5 Main Rd" }]
          = ["10 Oak St", "5 Main Rd"] := by
  refine ⟨?_, ?_, by decide⟩
  · intro s h
    unfold processQueue
    rw [if_pos h]
  · intro s
    unfold processQueue
    by_cases h : s.isProcessing = true
    · simp [h]
    · cases hq : s.queue <;> simp [h, hq]

/-- C4 witness: the drain guard and the single-dispatch bound at concrete
states. -/
theorem C4_amended_witness :
    processQueue { initState with isProcessing := true } =
        { initState with isProcessing := true } ∧
      (processQueue initState).started.length ≤ initState.started.length + 1 :=
  ⟨C4_amended.1 { initState with isProcessing := true } rfl, C4_amended.2.1 initState⟩

/-- C4 counterexample: one `calculateDistances` batch over two items with
distinct uncached addresses issues two forward geocode requests before any
response arrives — two geocode requests in flight in parallel, outside the
rate-limited queue. -/
theorem C4_counterexample :
    (forwardRequests (fun _ => none)
        [{ id := 1, location := "10 Oak St" }, { id := 2, location := "5 Main Rd" }]).length
      = 2 := by
  decide

/-- C5 counterexample: `loadItems` performs no client-side text filtering (nor
category or price filtering): with search text `"zzz"` and an item matching
it nowhere, the item survives `loadItems`' filtering, while the
spec-mandated four-filter pipeline removes it. -/
def sampleItem : BrowseItem :=
  { id := 1, title := "Drill", description := "a tool", category := "Tools",
    pricePerDay := 10, location := "Sandton" }

theorem C5_counterexample :
    loadItemsFiltered { searchQuery := "zzz" } [sampleItem] = [sampleItem] ∧
      specFilterPipeline { searchQuery := "zzz" } [sampleItem] = [] := by
  constructor
  · decide
  · decide

/-- C5, corrected claim: the only client-side filter `loadItems` applies is
the case-insensitive location substring filter, and only when the location
field is set (non-empty with non-empty trim); text, category and price
fields influence nothing but the choice between two branches that treat the
list identically apart from that location filter. -/
theorem C5_amended (f : FilterOptions) (items : List BrowseItem) :
    loadItemsFiltered f items =
      if f.location ≠ "" && jsTrim f.location ≠ "" then items.filter (locationMatches f)
      else items := by
  by_cases h : f.location ≠ "" ∧ jsTrim f.location ≠ ""
  · obtain ⟨h1, h2⟩ := h
    have hact : hasActiveFilters f = true := by
      unfold hasActiveFilters
      simp [h1, h2]
    unfold loadItemsFiltered
    simp [hact, h1, h2]
  · have hcond : (f.location ≠ "" && jsTrim f.location ≠ "") = false := by
      rw [Bool.and_eq_false_iff]
      by_cases h1 : f.location = ""
      · exact Or.inl (by simp [h1])
      · refine Or.inr ?_
        have h2 : ¬ jsTrim f.location ≠ "" := fun hh => h ⟨h1, hh⟩
        simp at h2
        simp [h2]
    unfold loadItemsFiltered
    rw [hcond]
    cases hact : hasActiveFilters f <;> simp

/-! ### Numeric bounds for the haversine test point

Interval bounds, at the test coordinates of the claim, for each
transcendental factor of `havA`, then for `havA` itself, then for the full
`haversine` distance. -/

/-- Interval product bound for non-negative intervals. -/
lemma mul_bounds {a b la ua lb ub : ℝ} (hla : la ≤ a) (hua : a ≤ ua) (hlb : lb ≤ b)
    (hub : b ≤ ub) (h0a : 0 ≤ la) (h0b : 0 ≤ lb) :
    la * lb ≤ a * b ∧ a * b ≤ ua * ub :=
  ⟨mul_le_mul hla hlb h0b (le_trans h0a hla),
    mul_le_mul hua hub (le_trans h0b hlb) (le_trans (le_trans h0a hla) hua)⟩

lemma sin1_bounds :
    (0.0039967 : ℝ) ≤ Real.sin (toRad ((-25.7461 : ℝ) - -26.2041) / 2) ∧
      Real.sin (toRad ((-25.7461 : ℝ) - -26.2041) / 2) ≤ 0.0039969 := by
  have hπl := Real.pi_gt_d6
  have hπu := Real.pi_lt_d6
  have hxl : (0.0039968 : ℝ) ≤ toRad ((-25.7461 : ℝ) - -26.2041) / 2 := by
    unfold toRad
    nlinarith
  have hxu : toRad ((-25.7461 : ℝ) - -26.2041) / 2 ≤ 0.0039969 := by
    unfold toRad
    nlinarith
  have hx0 : (0 : ℝ) < toRad ((-25.7461 : ℝ) - -26.2041) / 2 :=
    lt_of_lt_of_le (by norm_num) hxl
  constructor
  · have h := Real.sin_gt_sub_cube hx0 (le_trans hxu (by norm_num))
    have hx3 : (toRad ((-25.7461 : ℝ) - -26.2041) / 2) ^ 3 ≤ (0.0039969 : ℝ) ^ 3 :=
      pow_le_pow_left₀ (le_of_lt hx0) hxu 3
    nlinarith [h, hx3]
  · exact le_trans (le_of_lt (Real.sin_lt hx0)) hxu

lemma sin2_bounds :
    (0.0012286 : ℝ) ≤ Real.sin (toRad ((28.1881 : ℝ) - 28.0473) / 2) ∧
      Real.sin (toRad ((28.1881 : ℝ) - 28.0473) / 2) ≤ 0.0012288 := by
  have hπl := Real.pi_gt_d6
  have hπu := Real.pi_lt_d6
  have hxl : (0.0012287 : ℝ) ≤ toRad ((28.1881 : ℝ) - 28.0473) / 2 := by
    unfold toRad
    nlinarith
  have hxu : toRad ((28.1881 : ℝ) - 28.0473) / 2 ≤ 0.0012288 := by
    unfold toRad
    nlinarith
  have hx0 : (0 : ℝ) < toRad ((28.1881 : ℝ) - 28.0473) / 2 :=
    lt_of_lt_of_le (by norm_num) hxl
  constructor
  · have h := Real.sin_gt_sub_cube hx0 (le_trans hxu (by norm_num))
    have hx3 : (toRad ((28.1881 : ℝ) - 28.0473) / 2) ^ 3 ≤ (0.0012288 : ℝ) ^ 3 :=
      pow_le_pow_left₀ (le_of_lt hx0) hxu 3
    nlinarith [h, hx3]
  · exact le_trans (le_of_lt (Real.sin_lt hx0)) hxu

lemma cos1_bounds :
    (0.893137 : ℝ) ≤ Real.cos (toRad (-26.2041 : ℝ)) ∧
      Real.cos (toRad (-26.2041 : ℝ)) ≤ 0.897696 := by
  have hπl := Real.pi_gt_d6
  have hπu := Real.pi_lt_d6
  have hxl : (-0.4573479 : ℝ) ≤ toRad (-26.2041 : ℝ) := by
    unfold toRad
    nlinarith
  have hxu : toRad (-26.2041 : ℝ) ≤ -0.4573477 := by
    unfold toRad
    nlinarith
  have habs : |toRad (-26.2041 : ℝ)| ≤ 1 := by
    rw [abs_le]
    constructor <;> nlinarith
  have hsql : (0.2091669 : ℝ) ≤ (toRad (-26.2041 : ℝ)) ^ 2 := by nlinarith
  have hsqu : (toRad (-26.2041 : ℝ)) ^ 2 ≤ 0.2091672 := by nlinarith
  have h := Real.cos_bound habs
  rw [abs_le] at h
  have h4 : |toRad (-26.2041 : ℝ)| ^ 4 = ((toRad (-26.2041 : ℝ)) ^ 2) ^ 2 := by
    rw [show (4 : ℕ) = 2 * 2 from rfl, pow_mul, sq_abs]
  rw [h4] at h
  have hsq4 : ((toRad (-26.2041 : ℝ)) ^ 2) ^ 2 ≤ (0.2091672 : ℝ) ^ 2 :=
    pow_le_pow_left₀ (by positivity) hsqu 2
  constructor
  · nlinarith [h.1, hsq4, hsqu]
  · nlinarith [h.2, hsq4, hsql, sq_nonneg ((toRad (-26.2041 : ℝ)) ^ 2)]

lemma cos2_bounds :
    (0.896916 : ℝ) ≤ Real.cos (toRad (-25.7461 : ℝ)) ∧
      Real.cos (toRad (-25.7461 : ℝ)) ≤ 0.901165 := by
  have hπl := Real.pi_gt_d6
  have hπu := Real.pi_lt_d6
  have hxl : (-0.4493543 : ℝ) ≤ toRad (-25.7461 : ℝ) := by
    unfold toRad
    nlinarith
  have hxu : toRad (-25.7461 : ℝ) ≤ -0.4493541 := by
    unfold toRad
    nlinarith
  have habs : |toRad (-25.7461 : ℝ)| ≤ 1 := by
    rw [abs_le]
    constructor <;> nlinarith
  have hsql : (0.2019190 : ℝ) ≤ (toRad (-25.7461 : ℝ)) ^ 2 := by nlinarith
  have hsqu : (toRad (-25.7461 : ℝ)) ^ 2 ≤ 0.2019193 := by nlinarith
  have h := Real.cos_bound habs
  rw [abs_le] at h
  have h4 : |toRad (-25.7461 : ℝ)| ^ 4 = ((toRad (-25.7461 : ℝ)) ^ 2) ^ 2 := by
    rw [show (4 : ℕ) = 2 * 2 from rfl, pow_mul, sq_abs]
  rw [h4] at h
  have hsq4 : ((toRad (-25.7461 : ℝ)) ^ 2) ^ 2 ≤ (0.2019193 : ℝ) ^ 2 :=
    pow_le_pow_left₀ (by positivity) hsqu 2
  constructor
  · nlinarith [h.1, hsq4, hsqu]
  · nlinarith [h.2, hsq4, hsql, sq_nonneg ((toRad (-25.7461 : ℝ)) ^ 2)]

lemma havA_test_bounds :
    (0.0000171827 : ℝ) ≤ havA (-26.2041) 28.0473 (-25.7461) 28.1881 ∧
      havA (-26.2041) 28.0473 (-25.7461) 28.1881 ≤ 0.0000171968 := by
  obtain ⟨h1l, h1u⟩ := sin1_bounds
  obtain ⟨h2l, h2u⟩ := sin2_bounds
  obtain ⟨h3l, h3u⟩ := cos1_bounds
  obtain ⟨h4l, h4u⟩ := cos2_bounds
  have hcc := mul_bounds h3l h3u h4l h4u (by norm_num) (by norm_num)
  have hccs := mul_bounds hcc.1 hcc.2 h2l h2u (by norm_num) (by norm_num)
  have hccss := mul_bounds hccs.1 hccs.2 h2l h2u (by norm_num) (by norm_num)
  have hs1s1 := mul_bounds h1l h1u h1l h1u (by norm_num) (by norm_num)
  unfold havA
  constructor
  · nlinarith [hs1s1.1, hccss.1]
  · nlinarith [hs1s1.2, hccss.2]

set_option maxHeartbeats 1000000 in
/-- The haversine distance between Johannesburg city centre
`(-26.2041, 28.0473)` and Pretoria `(-25.7461, 28.1881)` lies within
`[52, 54]` km (the true value is ≈ 52.8 km). -/
lemma haversine_test_bounds :
    (52 : ℝ) ≤ haversine (-26.2041) 28.0473 (-25.7461) 28.1881 ∧
      haversine (-26.2041) 28.0473 (-25.7461) 28.1881 ≤ 54 := by
  obtain ⟨haL, haU⟩ := havA_test_bounds
  unfold haversine
  set A := havA (-26.2041) 28.0473 (-25.7461) 28.1881 with hA
  have hA0 : (0 : ℝ) < A := lt_of_lt_of_le (by norm_num) haL
  have hA1 : A < 1 := lt_of_le_of_lt haU (by norm_num)
  have h1mA : (0 : ℝ) < 1 - A := by linarith
  have hx : (0 : ℝ) < Real.sqrt (1 - A) := Real.sqrt_pos.mpr h1mA
  have hsAl : (0.0041452 : ℝ) ≤ Real.sqrt A := by
    have h := Real.sqrt_le_sqrt (show (0.0041452 : ℝ) ^ 2 ≤ A by nlinarith)
    rwa [Real.sqrt_sq (by norm_num)] at h
  have hsAu : Real.sqrt A ≤ 0.0041470 := by
    have h := Real.sqrt_le_sqrt (show A ≤ (0.0041470 : ℝ) ^ 2 by nlinarith)
    rwa [Real.sqrt_sq (by norm_num)] at h
  have hs1al : (0.99999 : ℝ) ≤ Real.sqrt (1 - A) := by
    have h := Real.sqrt_le_sqrt (show (0.99999 : ℝ) ^ 2 ≤ 1 - A by nlinarith)
    rwa [Real.sqrt_sq (by norm_num)] at h
  have hs1au : Real.sqrt (1 - A) ≤ 1 := by
    have h := Real.sqrt_le_sqrt (show 1 - A ≤ (1 : ℝ) by linarith)
    rwa [Real.sqrt_one] at h
  rw [atan2, if_pos hx]
  set t := Real.sqrt A / Real.sqrt (1 - A) with ht
  have htl : (0.0041452 : ℝ) ≤ t := by
    rw [ht, le_div_iff₀ hx]
    nlinarith [hsAl, hs1au, Real.sqrt_nonneg (1 - A)]
  have htu : t ≤ 0.0041471 := by
    rw [ht, div_le_iff₀ hx]
    nlinarith [hsAu, hs1al]
  have ht0 : (0 : ℝ) < t := lt_of_lt_of_le (by norm_num) htl
  have hat0 : (0 : ℝ) < Real.arctan t := by
    rw [← Real.arctan_zero]
    exact Real.arctan_strictMono ht0
  have hatu : Real.arctan t < t := by
    have h3 := Real.lt_tan hat0 (Real.arctan_lt_pi_div_two t)
    rwa [Real.tan_arctan] at h3
  have hatl : (0.0041451 : ℝ) ≤ Real.arctan t := by
    have hsin := Real.sin_arctan t
    have hle : Real.sin (Real.arctan t) ≤ Real.arctan t := Real.sin_le (le_of_lt hat0)
    have hsqpos : (0 : ℝ) < Real.sqrt (1 + t ^ 2) :=
      Real.sqrt_pos.mpr (by nlinarith [sq_nonneg t])
    have hsqu : Real.sqrt (1 + t ^ 2) ≤ 1.0000086 := by
      have h := Real.sqrt_le_sqrt (show 1 + t ^ 2 ≤ (1.0000086 : ℝ) ^ 2 by nlinarith [htu, ht0])
      rwa [Real.sqrt_sq (by norm_num)] at h
    have hq : (0.0041451 : ℝ) ≤ t / Real.sqrt (1 + t ^ 2) := by
      rw [le_div_iff₀ hsqpos]
      nlinarith [htl, hsqu, hsqpos]
    calc (0.0041451 : ℝ) ≤ t / Real.sqrt (1 + t ^ 2) := hq
      _ = Real.sin (Real.arctan t) := hsin.symm
      _ ≤ Real.arctan t := hle
  constructor
  · nlinarith [hatl]
  · nlinarith [hatu, ht0]

/-- C6 counterexample: an item whose *stored* coordinates are `(0, 28)` — a
valid point on the equator — is not ranked by the haversine distance from the
stored coordinates: JS truthiness treats the stored latitude `0` as missing
(`!lat`), and with no usable location string the distance becomes `Infinity`
(`none`), not `haversine(origin, stored)`. -/
theorem C6_counterexample :
    calcDistance 0 0 (fun _ => none)
        { id := 1, latitude := some 0, longitude := some 28, location := "" } = none ∧
      calcDistance 0 0 (fun _ => none)
          { id := 1, latitude := some 0, longitude := some 28, location := "" }
        ≠ some (haversine 0 0 0 28) := by
  have h : calcDistance 0 0 (fun _ => none)
      { id := 1, latitude := some 0, longitude := some 28, location := "" } = none := by
    simp [calcDistance, truthyCoordR]
  exact ⟨h, by rw [h]; simp⟩

/-- C6, corrected claim: for every origin and every candidate whose stored
coordinates are both *non-zero* (JS truthiness: a latitude or longitude of
`0` is treated as missing), `calculateDistances` sets the candidate's
distance to the haversine great-circle distance (Earth radius 6371 km)
between the origin and the stored coordinates; and at the test point, the
haversine distance between `(-26.2041, 28.0473)` and `(-25.7461, 28.1881)`
is `53.0 ± 1` km (it lies in `[52, 54]`). -/
theorem C6_amended :
    (∀ (uLat uLon : ℝ) (geocode : String → Option (ℝ × ℝ)) (it : RItem) (φ ψ : ℝ),
        it.latitude = some φ → φ ≠ 0 → it.longitude = some ψ → ψ ≠ 0 →
          calcDistance uLat uLon geocode it = some (haversine uLat uLon φ ψ)) ∧
      (52 : ℝ) ≤ haversine (-26.2041) 28.0473 (-25.7461) 28.1881 ∧
        haversine (-26.2041) 28.0473 (-25.7461) 28.1881 ≤ 54 := by
  refine ⟨?_, haversine_test_bounds⟩
  intro uLat uLon geocode it φ ψ hlat hφ hlon hψ
  simp only [calcDistance]
  rw [hlat, hlon]
  simp [truthyCoordR, hφ, hψ]

/-- C6 witness: a candidate storing the Pretoria coordinates, ranked from the
Johannesburg origin, receives exactly the haversine distance, and that
distance lies within 1 km of 53.0. -/
theorem C6_amended_witness :
    calcDistance (-26.2041) 28.0473 (fun _ => none)
        { id := 1, latitude := some (-25.7461), longitude := some 28.1881, location := "" }
      = some (haversine (-26.2041) 28.0473 (-25.7461) 28.1881) ∧
      (52 : ℝ) ≤ haversine (-26.2041) 28.0473 (-25.7461) 28.1881 ∧
        haversine (-26.2041) 28.0473 (-25.7461) 28.1881 ≤ 54 :=
  ⟨C6_amended.1 (-26.2041) 28.0473 (fun _ => none)
      { id := 1, latitude := some (-25.7461), longitude := some 28.1881, location := "" }
      (-25.7461) 28.1881 rfl (by norm_num) rfl (by norm_num),
    C6_amended.2⟩

end Frontend
